import Mathlib

/-!
# Verification of the fliptest lifecycle orchestrator

Shallow embedding of the core of `GESkunkworks/fliptest` (Go):

* `fliptest.go` — the authoritative revision: `New`, `checkResults`,
  `callLamda`, `CreateStack`, `DeleteStack`, `getStackInfo`, `Test`,
  `watchStack`.  All claim line references into `fliptest.go` match this
  revision exactly.
* `examples_test.go` carries two further revisions of the same file as
  related documents; where a claim cites them, the corresponding
  definition is embedded separately (suffix `Revised`).

Modelling conventions:

* Go `float64` elapsed times are embedded as `Rat`; the source performs
  no floating-point arithmetic on them, only order comparison with the
  exactly representable literal `6.0`, so the order embedding is exact.
* All AWS calls (CloudFormation create/describe/delete, Lambda invoke,
  template file reads) are oracles supplied as input: each run of an
  operation consumes the oracle's answer for that call site.
* Logging (`logMessage`) and wall-clock sleeps do not influence control
  flow and are not tracked, except the inter-retry sleeps of `Test`,
  which are recorded so that the retry-delay policy is provable.
* A Go runtime panic (nil-pointer dereference) is modelled as an
  explicit outcome constructor, distinct from a returned error.
-/

namespace Fliptest

/-- `TestUrl` from fliptest.go: a named URL to probe. -/
structure TestUrl where
  Name : String
  Url : String
deriving DecidableEq

/-- `lambdaEvent` from fliptest.go: payload sent to the probe lambda. -/
structure lambdaEvent where
  RequestType : String := ""
  TestUrls : List TestUrl := []
deriving DecidableEq

/-- `TestResult` from fliptest.go: one probe outcome as decoded from the
lambda response.  `ElapsedTimeS` is Go `float64`, embedded as `Rat`
(only compared against the exact literal 6, never computed with). -/
structure TestResult where
  Name : String
  ElapsedTimeS : Rat
  Message : String
  Success : Bool
  Url : String
  ResponseCode : Int
deriving DecidableEq

/-- `FlipTesterInput` from fliptest.go.  `Session` is opaque: only its
nil-ness matters to the orchestrator, hence `Option Unit`.
(`StackPfx` embeds the Go field `StackPrefix`.) -/
structure FlipTesterInput where
  SubnetId : String := ""
  VpcId : String := ""
  StackPfx : String := ""
  StackTemplateFilename : String := ""
  StackName : String := ""
  TestUrls : List TestUrl := []
  RetainStack : Bool := false
  Session : Option Unit := none
  Context : String := ""
  InitialSleepTimeSeconds : Int := 0
  PostEventSleepTimeSeconds : Int := 0
deriving DecidableEq

/-- `FlipTester` from fliptest.go.  Field defaults are the Go zero
values of the struct.  (`stackPfx` embeds the Go field `stackPrefix`.) -/
structure FlipTester where
  subnetId : String := ""
  vpcId : String := ""
  stackPfx : String := ""
  stackTemplateFilename : String := ""
  TestUrls : List TestUrl := []
  TestResults : List TestResult := []
  testEvent : lambdaEvent := {}
  Passed : Bool := false
  sess : Option Unit := none
  RetainStack : Bool := false
  stackCreated : Bool := false
  StackName : String := ""
  functionName : String := ""
  context : String := ""
  initialSleepTimeSeconds : Int := 0
  postEventSleepTimeSeconds : Int := 0
deriving DecidableEq

/-- Substring occurrence on character lists: the needle occurs iff it
is a prefix of some suffix of the haystack. -/
def charsContain (needle : List Char) : List Char → Bool
  | [] => needle.isEmpty
  | h :: t => needle.isPrefixOf (h :: t) || charsContain needle t

/-- Go `strings.Contains hay needle`: substring test. -/
def goContains (hay needle : String) : Bool :=
  charsContain needle.data hay.data

/-- `DefaultStackPrefix` const from fliptest.go. -/
def defaultStackPfx : String := "ISS-GR-egress-tester-"

/-- The default probe set that `New` installs when the caller supplies
no test URLs (fliptest.go lines 146-166). -/
def defaultTestUrls : List TestUrl :=
  [⟨"gopkg.in", "https://gopkg.in"⟩,
   ⟨"google", "https://www.google.com"⟩,
   ⟨"time", "https://www.nist.gov"⟩]

/-- Outcome of `New`: it can crash (nil-pointer dereference while
writing through the nil named return, fliptest.go line 102), return the
named nil pointer together with an error, or return a tester. -/
inductive NewResult where
  | panicNilDeref : NewResult
  | err : String → NewResult
  | ok : FlipTester → NewResult
deriving DecidableEq

/-- `New` from fliptest.go (lines 100-172).  When `input.Session` is
nil the very first statement writes `fliptester.sess` through the nil
named return value `fliptester`, which panics in Go before anything is
allocated; every later step runs only with a non-nil session. -/
def New (input : FlipTesterInput) : NewResult :=
  if input.Session = none then NewResult.panicNilDeref
  else
    let ctx := if input.Context = "" then "Default" else input.Context
    let ist := if input.InitialSleepTimeSeconds = 0 then 40
               else input.InitialSleepTimeSeconds
    let pst := if input.PostEventSleepTimeSeconds = 0 then 20
               else input.PostEventSleepTimeSeconds
    let ev : lambdaEvent :=
      { RequestType := "RunAll",
        TestUrls := if input.TestUrls.length < 1 then defaultTestUrls
                    else input.TestUrls }
    if input.StackName = "" then
      -- fresh-provisioning path: SubnetId and VpcId are required
      if input.SubnetId = "" then
        NewResult.err "SubnetId is a required input field if StackName is not supplied"
      else if input.VpcId = "" then
        NewResult.err "VpcId is a required input field if StackName is not supplied"
      else
        NewResult.ok
          { sess := input.Session,
            context := ctx,
            initialSleepTimeSeconds := ist,
            postEventSleepTimeSeconds := pst,
            subnetId := input.SubnetId,
            vpcId := input.VpcId,
            stackPfx := if input.StackPfx = "" then defaultStackPfx
                        else input.StackPfx,
            stackTemplateFilename := input.StackTemplateFilename,
            RetainStack := input.RetainStack,
            testEvent := ev }
    else
      -- resume path: start with the created flag already set
      NewResult.ok
        { sess := input.Session,
          context := ctx,
          initialSleepTimeSeconds := ist,
          postEventSleepTimeSeconds := pst,
          StackName := input.StackName,
          stackCreated := true,
          RetainStack := input.RetainStack,
          testEvent := ev }

/-- `checkResults` from fliptest.go (lines 253-272).  Walks the results
in order; the first unsuccessful result, or the first one slower than
the 6-second threshold, short-circuits with `(false, error citing its
URL)`.  An empty list falls straight through to `(true, none)`. -/
def checkResults : List TestResult → Bool × Option String
  | [] => (true, none)
  | r :: rest =>
    if !r.Success then
      (false, some ("test failed: " ++ r.Url))
    else if r.ElapsedTimeS > 6 then
      (false, some ("test took too long: " ++ r.Url))
    else checkResults rest

/-- Loop body of the revised `checkResults` (examples_test.go revision,
lines 798-808): same walk, error-only result. -/
def checkResultsRevisedLoop : List TestResult → Option String
  | [] => none
  | r :: rest =>
    if !r.Success then
      some ("test failed: " ++ r.Url)
    else if r.ElapsedTimeS > 6 then
      some ("test took too long: " ++ r.Url)
    else checkResultsRevisedLoop rest

/-- `checkResults` of the revised fliptest.go carried in
examples_test.go (lines 791-810): unlike the authoritative revision it
rejects an empty result list up front, with a message that *contains*
"no test results to check". -/
def checkResultsRevised (results : List TestResult) : Option String :=
  if results.length < 1 then
    some "tests failed; no test results to check"
  else checkResultsRevisedLoop results

/-- A CloudFormation stack as seen by the readiness poll of
`watchStack`: only `StackName` and `StackStatus` are read there. -/
structure Stack where
  StackName : String
  StackStatus : String
deriving DecidableEq

/-- One `DescribeStacks` answer during the readiness poll: either an
API error or a (possibly empty) list of stacks. -/
inductive DescribeResult where
  | fail : String → DescribeResult
  | stacks : List Stack → DescribeResult

/-- The statuses the `switch` of `watchStack` (fliptest.go lines
511-526) recognizes as terminal.  `CREATE_COMPLETE` is the success
terminal; the other six are failure terminals. -/
def isTerminalStatus (s : String) : Bool :=
  s = "CREATE_COMPLETE" || s = "ROLLBACK_IN_PROGRESS" ||
  s = "ROLLBACK_COMPLETE" || s = "DELETE_IN_PROGRESS" ||
  s = "DELETE_COMPLETE" || s = "CREATE_FAILED" || s = "DELETE_FAILED"

/-- Loop of `watchStack` (fliptest.go lines 496-533).  `fuel` is the
number of polls still allowed (`maxtries - count`), `idx` indexes the
poll oracle, `cur` is the Go named return `stack` (last stack seen,
initially nil).

Faithful to the source, including its `err` shadowing: inside the loop
`result, err := svc.DescribeStacks(...)` declares a NEW `err`, so the
`return stack, err` reached on a terminal status returns that shadowed
value — which is nil — and the `return stack, err` after `break`
returns the never-assigned named `err`, also nil.  Hence a terminal
status (success or failure alike) and an exhausted `maxtries` both
yield `none` as the error component. -/
def watchStackLoop (poll : Nat → DescribeResult) :
    Nat → Nat → Option Stack → Option Stack × Option String
  | _, 0, cur => (cur, none)     -- count > maxtries: break, named err still nil
  | idx, fuel + 1, cur =>
    match poll idx with
    | DescribeResult.fail e => (cur, some e)
    | DescribeResult.stacks [] => (cur, some "not enough stacks in describe")
    | DescribeResult.stacks (s :: _) =>
      if isTerminalStatus s.StackStatus then (some s, none)
      else watchStackLoop poll (idx + 1) fuel (some s)

/-- `watchStack` from fliptest.go (lines 487-535): poll the stack's
status up to `maxtries` times. -/
def watchStack (poll : Nat → DescribeResult) (maxtries : Nat) :
    Option Stack × Option String :=
  watchStackLoop poll 0 maxtries none

/-- One stack output (`OutputKey`/`OutputValue`) as read by
`getStackInfo`. -/
structure OutputEntry where
  OutputKey : String
  OutputValue : String
deriving DecidableEq

/-- A stack as seen by `getStackInfo`: only `Outputs` is read. -/
structure StackInfo where
  Outputs : List OutputEntry
deriving DecidableEq

/-- The `DescribeStacks` answer consumed by `getStackInfo`. -/
inductive DescribeInfoResult where
  | fail : String → DescribeInfoResult
  | stacks : List StackInfo → DescribeInfoResult
deriving DecidableEq

/-- `getStackInfo` from fliptest.go (lines 390-416): the first output
of the first stack must be keyed "FunctionName"; everything else is a
hard error. -/
def getStackInfoRun (ft : FlipTester) (d : DescribeInfoResult) :
    FlipTester × Option String :=
  match d with
  | DescribeInfoResult.fail e => (ft, some e)
  | DescribeInfoResult.stacks [] =>
    (ft, some "could not find stack with provided StackName")
  | DescribeInfoResult.stacks (s :: _) =>
    match s.Outputs with
    | [] => (ft, some "no outputs detected on provided StackName")
    | o :: _ =>
      if o.OutputKey = "FunctionName" then
        ({ ft with functionName := o.OutputValue }, none)
      else
        (ft, some "error getting FunctionName output from existing stack")

/-- The external answers one `callLamda` attempt can consume: the
`DescribeStacks` of `getStackInfo`, then the Lambda `Invoke`.  The
outer `Except` is the transport outcome of `Invoke`; the inner one is
the `json.Unmarshal` of its payload into `[]*TestResult`.
(`json.Marshal` of the fixed-shape `lambdaEvent` cannot fail and is
not modelled as fallible.) -/
structure InvokeOracle where
  describe : DescribeInfoResult
  invoke : Except String (Except String (List TestResult))

/-- `callLamda` from fliptest.go (lines 274-319): resolve the function
name, invoke, decode, then run `checkResults`; a validation failure is
replaced by the fixed error "tests failed or took too long". -/
def callLamdaRun (ft : FlipTester) (o : InvokeOracle) :
    FlipTester × Option String :=
  match getStackInfoRun ft o.describe with
  | (ft1, some e) => (ft1, some e)
  | (ft1, none) =>
    match o.invoke with
    | Except.error e => (ft1, some e)
    | Except.ok (Except.error e) => (ft1, some e)
    | Except.ok (Except.ok results) =>
      let ft2 := { ft1 with TestResults := results }
      match checkResults results with
      | (_, some _) => (ft2, some "tests failed or took too long")
      | (_, none) => (ft2, none)

/-- Abridged stand-in for the `defaultTemplate` const (the embedded
CloudFormation YAML of fliptestTemplateIgnoreSSL.go); the orchestrator
never inspects its content, only passes it through. -/
def defaultTemplate : String := "AWSTemplateFormatVersion 2010-09-09 egress tester template"

/-- `getTemplateBody` from fliptest.go (lines 244-251): the built-in
template when no filename is configured, otherwise the oracle's answer
for `ioutil.ReadFile`. -/
def getTemplateBodyRun (ft : FlipTester) (readFile : Except String String) :
    Except String String :=
  if ft.stackTemplateFilename = "" then Except.ok defaultTemplate
  else readFile

/-- All external answers one `Test` run can consume.  `rando` is the
random 8-digit stack-name suffix; `createStack` is the CloudFormation
`CreateStack` submission (returning the new StackId); `poll` feeds
`watchStack`; `calls n` feeds the n-th `callLamda` attempt;
`deleteStack` is the `DeleteStack` outcome (`none` = success). -/
structure TestOracle where
  readFile : Except String String
  rando : String
  createStack : Except String String
  poll : Nat → DescribeResult
  calls : Nat → InvokeOracle
  deleteStack : Option String

/-- `CreateStack` from fliptest.go (lines 336-388): load the template,
submit creation, then `watchStack` with maxtries 90; on a nil-error
watch result, take the watched stack's name and set the created flag.
The dereference `*stack.StackName` on a nil `stack` (possible only if
the watch loop never ran) is modelled as a distinguished panic
message. -/
def createStackRun (ft : FlipTester) (o : TestOracle) :
    FlipTester × Option String :=
  match getTemplateBodyRun ft o.readFile with
  | Except.error e => (ft, some e)
  | Except.ok _ =>
    match o.createStack with
    | Except.error e => (ft, some e)
    | Except.ok stackId =>
      let ft1 := { ft with StackName := stackId }
      match watchStack o.poll 90 with
      | (_, some e) => (ft1, some e)
      | (none, none) =>
        (ft1, some "panic: runtime error: invalid memory address or nil pointer dereference")
      | (some s, none) =>
        ({ ft1 with StackName := s.StackName, stackCreated := true }, none)

/-- `DeleteStack` from fliptest.go (lines 323-331): fire-and-forget
deletion; the oracle gives its outcome. -/
def deleteStackRun (ft : FlipTester) (o : TestOracle) :
    FlipTester × Option String :=
  (ft, o.deleteStack)

/-- Result of the invocation-and-retry section of `Test`:
the tester, the current error, the total number of `callLamda`
attempts made, and the sleeps (in seconds) taken before retries. -/
structure RetryResult where
  ft : FlipTester
  err : Option String
  attempts : Nat
  sleeps : List Nat
deriving DecidableEq

/-- The `for i := 0; i < 5; i++` loop of `Test` (fliptest.go lines
441-454): each of the 5 iterations re-examines the current error; only
when it is non-nil and contains "Service" does it sleep 10 seconds and
re-run `callLamda`. -/
def retryLoop (calls : Nat → InvokeOracle) :
    Nat → FlipTester → Option String → Nat → RetryResult
  | 0, ft, err, n => ⟨ft, err, n, []⟩
  | i + 1, ft, err, n =>
    match err with
    | some e =>
      if goContains e "Service" then
        let r := callLamdaRun ft (calls n)
        let rest := retryLoop calls i r.1 r.2 (n + 1)
        { rest with sleeps := 10 :: rest.sleeps }
      else retryLoop calls i ft err n
    | none => retryLoop calls i ft err n

/-- The invoke-then-retry section of `Test` (fliptest.go lines
438-454): the initial `callLamda` followed by the bounded retry
loop. -/
def retrySection (ft : FlipTester) (calls : Nat → InvokeOracle) : RetryResult :=
  let first := callLamdaRun ft (calls 0)
  retryLoop calls 5 first.1 first.2 1

/-- Outcome of one `Test` run, with the collaborator calls the claims
are about made observable: whether `CreateStack` was entered, whether
`DeleteStack` was entered, how many `callLamda` attempts ran, and the
inter-retry sleeps. -/
structure TestOutcome where
  ft : FlipTester
  err : Option String
  createCalled : Bool
  deleteCalled : Bool
  attempts : Nat
  sleeps : List Nat
deriving DecidableEq

/-- The teardown tail of `Test` (fliptest.go lines 460-478): when the
retain flag is false, call `DeleteStack` and clear the created flag on
its success; the returned error is the deletion error, if any (any
earlier error already returned before this point). -/
def finishTeardown (ft : FlipTester) (o : TestOracle) (created : Bool)
    (n : Nat) (sl : List Nat) : TestOutcome :=
  if !ft.RetainStack then
    match deleteStackRun ft o with
    | (ftd, none) => ⟨{ ftd with stackCreated := false }, none, created, true, n, sl⟩
    | (ftd, some e) => ⟨ftd, some e, created, true, n, sl⟩
  else
    ⟨ft, none, created, false, n, sl⟩

/-- The part of `Test` after the provisioning step (fliptest.go lines
431-478): if the created flag is set, sleep, run the invoke-and-retry
section, return its error immediately if any (BEFORE the teardown
tail), else set `Passed` and fall through to teardown. -/
def TestRunAfterCreate (ft1 : FlipTester) (o : TestOracle) (created : Bool) :
    TestOutcome :=
  if ft1.stackCreated then
    let r := retrySection ft1 o.calls
    match r.err with
    | some e => ⟨r.ft, some e, created, false, r.attempts, r.sleeps⟩
    | none =>
      finishTeardown { r.ft with Passed := true } o created r.attempts r.sleeps
  else
    finishTeardown ft1 o created 0 []

/-- `Test` from fliptest.go (lines 420-479): provision when the created
flag is unset (returning immediately on a provisioning error), then the
invoke/retry/validate section, then the conditional teardown. -/
def TestRun (ft0 : FlipTester) (o : TestOracle) : TestOutcome :=
  if !ft0.stackCreated then
    match createStackRun ft0 o with
    | (ft1, some e) => ⟨ft1, some e, true, false, 0, []⟩
    | (ft1, none) => TestRunAfterCreate ft1 o true
  else
    TestRunAfterCreate ft0 o false

/-- The error message `checkResults` produces for a violating result:
the unsuccessful case is checked before the too-slow case. -/
def violMsg (r : TestResult) : String :=
  if !r.Success then "test failed: " ++ r.Url
  else "test took too long: " ++ r.Url

/-! ### Concrete fixtures used by witnesses and counterexamples -/

/-- A probe result whose `Success` flag is false. -/
def failingResult : TestResult :=
  ⟨"gopkg.in", 1, "connection refused", false, "https://gopkg.in", 0⟩

/-- A probe result that passes (successful, under 6 seconds). -/
def passingResult : TestResult :=
  ⟨"gopkg.in", 1, "got response code from URL", true, "https://gopkg.in", 200⟩

/-- A resumed tester (created flag set) that does not retain its stack. -/
def ftResumed : FlipTester :=
  { sess := some (), context := "Default",
    initialSleepTimeSeconds := 40, postEventSleepTimeSeconds := 20,
    StackName := "ISS-GR-egress-tester-00714632",
    stackCreated := true, RetainStack := false,
    testEvent := { RequestType := "RunAll", TestUrls := defaultTestUrls } }

/-- The construction input that yields `ftResumed`. -/
def inputResumed : FlipTesterInput :=
  { Session := some (), StackName := "ISS-GR-egress-tester-00714632" }

/-- The same resumed tester with the retain flag set. -/
def ftResumedRetain : FlipTester := { ftResumed with RetainStack := true }

/-- An oracle for a run in which every external call succeeds and the
single probe result fails validation. -/
def oracleFailingProbe : TestOracle :=
  { readFile := Except.ok "",
    rando := "00000000",
    createStack := Except.ok "arn:stack-id",
    poll := fun _ => DescribeResult.stacks [⟨"ISS-GR-egress-tester-00000000", "CREATE_COMPLETE"⟩],
    calls := fun _ =>
      { describe := DescribeInfoResult.stacks [⟨[⟨"FunctionName", "egress-fn"⟩]⟩],
        invoke := Except.ok (Except.ok [failingResult]) },
    deleteStack := none }

/-- An oracle for a fully passing run: creation completes on the first
poll, the probe passes, deletion succeeds. -/
def oraclePassing : TestOracle :=
  { readFile := Except.ok "",
    rando := "00000001",
    createStack := Except.ok "arn:stack-id-2",
    poll := fun _ => DescribeResult.stacks [⟨"ISS-GR-egress-tester-00000001", "CREATE_COMPLETE"⟩],
    calls := fun _ =>
      { describe := DescribeInfoResult.stacks [⟨[⟨"FunctionName", "egress-fn"⟩]⟩],
        invoke := Except.ok (Except.ok [passingResult]) },
    deleteStack := none }

/-- An oracle whose first readiness poll reports the failure-terminal
status ROLLBACK_COMPLETE. -/
def oracleRollback : TestOracle :=
  { oraclePassing with
    poll := fun _ => DescribeResult.stacks [⟨"ISS-GR-egress-tester-00000001", "ROLLBACK_COMPLETE"⟩] }

/-- A fresh-provisioning tester (created flag unset). -/
def ftFresh : FlipTester :=
  { sess := some (), context := "Default",
    initialSleepTimeSeconds := 40, postEventSleepTimeSeconds := 20,
    subnetId := "subnet-d3297188", vpcId := "vpc-c8a6c3ae",
    stackPfx := defaultStackPfx,
    testEvent := { RequestType := "RunAll", TestUrls := defaultTestUrls } }

/-! ## Helper lemmas -/

/-- A list of all-passing results satisfies `checkResults`. -/
theorem checkResults_all_pass (l : List TestResult)
    (h : ∀ p ∈ l, p.Success = true ∧ p.ElapsedTimeS ≤ 6) :
    checkResults l = (true, none) := by
  induction l with
  | nil => rfl
  | cons r rest ih =>
    have hr := h r (List.mem_cons_self r rest)
    have hrest : ∀ p ∈ rest, p.Success = true ∧ p.ElapsedTimeS ≤ 6 :=
      fun p hp => h p (List.mem_cons_of_mem r hp)
    simp only [checkResults, hr.1, Bool.not_true, Bool.false_eq_true, if_false,
      if_neg (not_lt.mpr hr.2)]
    exact ih hrest

/-- `checkResults` fails on the first violating element, citing its
URL, and the elements after it play no role. -/
theorem checkResults_firstViol (pre : List TestResult) (r : TestResult)
    (post : List TestResult)
    (hpre : ∀ p ∈ pre, p.Success = true ∧ p.ElapsedTimeS ≤ 6)
    (hr : r.Success = false ∨ r.ElapsedTimeS > 6) :
    checkResults (pre ++ r :: post) = (false, some (violMsg r)) := by
  induction pre with
  | nil =>
    simp only [List.nil_append]
    by_cases hs : r.Success
    · have he : r.ElapsedTimeS > 6 := by
        rcases hr with h | h
        · rw [hs] at h; cases h
        · exact h
      simp [checkResults, violMsg, hs, he]
    · simp [checkResults, violMsg, hs]
  | cons p ps ih =>
    have hp := hpre p (List.mem_cons_self p ps)
    have hps : ∀ q ∈ ps, q.Success = true ∧ q.ElapsedTimeS ≤ 6 :=
      fun q hq => hpre q (List.mem_cons_of_mem p hq)
    simp only [List.cons_append, checkResults, hp.1, Bool.not_true,
      Bool.false_eq_true, if_false, if_neg (not_lt.mpr hp.2)]
    exact ih hps

/-- `getStackInfo` only ever writes `functionName`. -/
theorem getStackInfoRun_fields (ft : FlipTester) (d : DescribeInfoResult) :
    (getStackInfoRun ft d).1.RetainStack = ft.RetainStack ∧
    (getStackInfoRun ft d).1.stackCreated = ft.stackCreated := by
  rcases d with e | l
  · exact ⟨rfl, rfl⟩
  · rcases l with _ | ⟨s, rest⟩
    · exact ⟨rfl, rfl⟩
    · rcases hs : s.Outputs with _ | ⟨o, os⟩
      · simp [getStackInfoRun, hs]
      · by_cases hk : o.OutputKey = "FunctionName" <;>
          simp [getStackInfoRun, hs, hk]

/-- `callLamda` only ever writes `functionName` and `TestResults`. -/
theorem callLamdaRun_fields (ft : FlipTester) (o : InvokeOracle) :
    (callLamdaRun ft o).1.RetainStack = ft.RetainStack ∧
    (callLamdaRun ft o).1.stackCreated = ft.stackCreated := by
  have hp := getStackInfoRun_fields ft o.describe
  unfold callLamdaRun
  rcases hg : getStackInfoRun ft o.describe with ⟨ft1, e1⟩
  rw [hg] at hp
  rcases e1 with _ | e
  · rcases o.invoke with e | inner
    · exact hp
    · rcases inner with e | results
      · exact hp
      · rcases hc : checkResults results with ⟨okb, errb⟩
        rcases errb with _ | e <;> simp only [hc] <;> simpa using hp
  · exact hp

/-- The retry loop only rewrites what `callLamda` rewrites. -/
theorem retryLoop_fields (calls : Nat → InvokeOracle) (i : Nat) :
    ∀ (ft : FlipTester) (err : Option String) (n : Nat),
    (retryLoop calls i ft err n).ft.RetainStack = ft.RetainStack ∧
    (retryLoop calls i ft err n).ft.stackCreated = ft.stackCreated := by
  induction i with
  | zero => intro ft err n; exact ⟨rfl, rfl⟩
  | succ i ih =>
    intro ft err n
    rcases err with _ | e
    · simpa [retryLoop] using ih ft none n
    · by_cases hc : goContains e "Service"
      · have h1 := callLamdaRun_fields ft (calls n)
        have h2 := ih (callLamdaRun ft (calls n)).1 (callLamdaRun ft (calls n)).2 (n + 1)
        simp only [retryLoop, hc, if_true]
        exact ⟨h2.1.trans h1.1, h2.2.trans h1.2⟩
      · simp only [retryLoop, Bool.not_eq_true] at hc ⊢
        simp only [hc, Bool.false_eq_true, if_false]
        exact ih ft (some e) n

/-- The invoke-and-retry section preserves the retain and created
flags. -/
theorem retrySection_fields (ft : FlipTester) (calls : Nat → InvokeOracle) :
    (retrySection ft calls).ft.RetainStack = ft.RetainStack ∧
    (retrySection ft calls).ft.stackCreated = ft.stackCreated := by
  unfold retrySection
  have h1 := callLamdaRun_fields ft (calls 0)
  have h2 := retryLoop_fields calls 5 (callLamdaRun ft (calls 0)).1
    (callLamdaRun ft (calls 0)).2 1
  exact ⟨h2.1.trans h1.1, h2.2.trans h1.2⟩

/-- The retry loop makes at most `i` further attempts. -/
theorem retryLoop_attempts_le (calls : Nat → InvokeOracle) (i : Nat) :
    ∀ (ft : FlipTester) (err : Option String) (n : Nat),
    (retryLoop calls i ft err n).attempts ≤ n + i := by
  induction i with
  | zero => intro ft err n; exact Nat.le_refl n
  | succ i ih =>
    intro ft err n
    rcases err with _ | e
    · simpa [retryLoop] using Nat.le_succ_of_le (ih ft none n)
    · by_cases hc : goContains e "Service"
      · simp only [retryLoop, hc, if_true]
        have := ih (callLamdaRun ft (calls n)).1 (callLamdaRun ft (calls n)).2 (n + 1)
        omega
      · simp only [retryLoop, Bool.not_eq_true] at hc ⊢
        simp only [hc, Bool.false_eq_true, if_false]
        exact Nat.le_succ_of_le (ih ft (some e) n)

/-- Every sleep the retry loop records is the fixed 10-second delay. -/
theorem retryLoop_sleeps_ten (calls : Nat → InvokeOracle) (i : Nat) :
    ∀ (ft : FlipTester) (err : Option String) (n : Nat),
    ∀ d ∈ (retryLoop calls i ft err n).sleeps, d = 10 := by
  induction i with
  | zero => intro ft err n d hd; simp [retryLoop] at hd
  | succ i ih =>
    intro ft err n d hd
    rcases err with _ | e
    · simp only [retryLoop] at hd; exact ih ft none n d hd
    · by_cases hc : goContains e "Service"
      · simp only [retryLoop, hc, if_true, List.mem_cons] at hd
        rcases hd with h | h
        · exact h
        · exact ih (callLamdaRun ft (calls n)).1 (callLamdaRun ft (calls n)).2 (n + 1) d h
      · simp only [retryLoop, Bool.not_eq_true] at hc
        simp only [retryLoop, hc, Bool.false_eq_true, if_false] at hd
        exact ih ft (some e) n d hd

/-- Each retry is matched by exactly one recorded sleep. -/
theorem retryLoop_attempts_eq (calls : Nat → InvokeOracle) (i : Nat) :
    ∀ (ft : FlipTester) (err : Option String) (n : Nat),
    (retryLoop calls i ft err n).attempts =
      n + (retryLoop calls i ft err n).sleeps.length := by
  induction i with
  | zero => intro ft err n; rfl
  | succ i ih =>
    intro ft err n
    rcases err with _ | e
    · simpa [retryLoop] using ih ft none n
    · by_cases hc : goContains e "Service"
      · simp only [retryLoop, hc, if_true, List.length_cons]
        have := ih (callLamdaRun ft (calls n)).1 (callLamdaRun ft (calls n)).2 (n + 1)
        omega
      · simp only [retryLoop, Bool.not_eq_true] at hc ⊢
        simp only [hc, Bool.false_eq_true, if_false]
        exact ih ft (some e) n

/-- A current error that does not carry the transient signature stops
the loop cold: no further attempts, no sleeps, nothing changed. -/
theorem retryLoop_halt (calls : Nat → InvokeOracle) (i : Nat) :
    ∀ (ft : FlipTester) (e : String) (n : Nat),
    goContains e "Service" = false →
    retryLoop calls i ft (some e) n = ⟨ft, some e, n, []⟩ := by
  induction i with
  | zero => intro ft e n _; rfl
  | succ i ih =>
    intro ft e n hc
    simp only [retryLoop, hc, Bool.false_eq_true, if_false]
    exact ih ft e n hc

/-- The invoke-and-retry section makes at most 6 attempts in total
(the initial `callLamda` plus at most 5 retries). -/
theorem retrySection_attempts_le (ft : FlipTester) (calls : Nat → InvokeOracle) :
    (retrySection ft calls).attempts ≤ 6 :=
  retryLoop_attempts_le calls 5 (callLamdaRun ft (calls 0)).1
    (callLamdaRun ft (calls 0)).2 1

/-- All sleeps of the invoke-and-retry section are 10 seconds. -/
theorem retrySection_sleeps_ten (ft : FlipTester) (calls : Nat → InvokeOracle) :
    ∀ d ∈ (retrySection ft calls).sleeps, d = 10 :=
  retryLoop_sleeps_ten calls 5 (callLamdaRun ft (calls 0)).1
    (callLamdaRun ft (calls 0)).2 1

/-- Attempts beyond the first are in bijection with recorded sleeps. -/
theorem retrySection_attempts_eq (ft : FlipTester) (calls : Nat → InvokeOracle) :
    (retrySection ft calls).attempts = 1 + (retrySection ft calls).sleeps.length :=
  retryLoop_attempts_eq calls 5 (callLamdaRun ft (calls 0)).1
    (callLamdaRun ft (calls 0)).2 1

/-- The teardown tail passes the bookkeeping fields through. -/
theorem finishTeardown_proj (ft : FlipTester) (o : TestOracle) (c : Bool)
    (n : Nat) (sl : List Nat) :
    (finishTeardown ft o c n sl).createCalled = c ∧
    (finishTeardown ft o c n sl).attempts = n ∧
    (finishTeardown ft o c n sl).sleeps = sl := by
  unfold finishTeardown deleteStackRun
  by_cases hr : ft.RetainStack
  · simp [hr]
  · rcases hd : o.deleteStack with _ | e <;> simp [hr, hd]

/-- After the provisioning step, `Test` records exactly the
`createCalled` value it is handed, makes at most 6 attempts, and only
ever sleeps 10 seconds between retries, one sleep per retry. -/
theorem TestRunAfterCreate_proj (ft1 : FlipTester) (o : TestOracle) (c : Bool) :
    (TestRunAfterCreate ft1 o c).createCalled = c ∧
    (TestRunAfterCreate ft1 o c).attempts ≤ 6 ∧
    (∀ d ∈ (TestRunAfterCreate ft1 o c).sleeps, d = 10) ∧
    (TestRunAfterCreate ft1 o c).attempts ≤
      (TestRunAfterCreate ft1 o c).sleeps.length + 1 := by
  unfold TestRunAfterCreate
  by_cases hs : ft1.stackCreated
  · simp only [hs, if_true]
    rcases hr : (retrySection ft1 o.calls).err with _ | e
    · simp only [hr]
      have hp := finishTeardown_proj { (retrySection ft1 o.calls).ft with Passed := true }
        o c (retrySection ft1 o.calls).attempts (retrySection ft1 o.calls).sleeps
      refine ⟨hp.1, ?_, ?_, ?_⟩
      · rw [hp.2.1]; exact retrySection_attempts_le ft1 o.calls
      · rw [hp.2.2]; exact retrySection_sleeps_ten ft1 o.calls
      · rw [hp.2.1, hp.2.2]
        have := retrySection_attempts_eq ft1 o.calls
        omega
    · simp only [hr]
      refine ⟨by trivial, retrySection_attempts_le ft1 o.calls,
        retrySection_sleeps_ten ft1 o.calls, ?_⟩
      have := retrySection_attempts_eq ft1 o.calls
      omega
  · simp only [Bool.not_eq_true] at hs
    simp only [hs, Bool.false_eq_true, if_false]
    have hp := finishTeardown_proj ft1 o c 0 []
    refine ⟨hp.1, ?_, ?_, ?_⟩
    · rw [hp.2.1]; exact Nat.zero_le 6
    · rw [hp.2.2]; intro d hd; simp at hd
    · rw [hp.2.1]; exact Nat.zero_le _

/-- `Test` as a whole makes at most 6 `callLamda` attempts, sleeps only
the fixed 10 seconds between retries, and takes at most one retry per
recorded sleep. -/
theorem TestRun_bounds (ft0 : FlipTester) (o : TestOracle) :
    (TestRun ft0 o).attempts ≤ 6 ∧
    (∀ d ∈ (TestRun ft0 o).sleeps, d = 10) ∧
    (TestRun ft0 o).attempts ≤ (TestRun ft0 o).sleeps.length + 1 := by
  unfold TestRun
  by_cases hs : ft0.stackCreated
  · simp only [hs, Bool.not_true, Bool.false_eq_true, if_false]
    have hp := TestRunAfterCreate_proj ft0 o false
    exact ⟨hp.2.1, hp.2.2.1, hp.2.2.2⟩
  · simp only [Bool.not_eq_true] at hs
    simp only [hs, Bool.not_false, if_true]
    rcases hc : createStackRun ft0 o with ⟨ft1, e?⟩
    rcases e? with _ | e
    · have hp := TestRunAfterCreate_proj ft1 o true
      exact ⟨hp.2.1, hp.2.2.1, hp.2.2.2⟩
    · refine ⟨Nat.zero_le 6, ?_, Nat.zero_le _⟩
      intro d hd; simp at hd

/-! ## Claims -/

/-- Claim C2, counterexample: `checkResults` applied to the empty
results list reports success `(true, none)` — it does not fail with
"no test results to check" as claimed. -/
theorem checkResults_empty_reports_success : checkResults [] = (true, none) := rfl

/-- Claim C2, amended: the authoritative `checkResults` (fliptest.go)
reports success on an empty results list; only the revised
`checkResults` carried in examples_test.go rejects the empty list, and
its message is "tests failed; no test results to check", which contains
but is not equal to the claimed fixed string. -/
theorem checkResults_empty_behavior :
    checkResults [] = (true, none) ∧
    checkResultsRevised [] = some "tests failed; no test results to check" ∧
    goContains "tests failed; no test results to check" "no test results to check" = true :=
  ⟨rfl, rfl, by decide⟩

/-- Claim C3 (code bug): when no poll ever observes a terminal status,
`watchStack` does terminate after `maxtries` polls, but returns the
last-seen stack with a NIL error — the timeout is silently swallowed
(the named `err` is shadowed inside the loop and never assigned), so
the caller `CreateStack` treats the run as a success. -/
theorem watchStack_timeout_returns_nil_error :
    watchStack
      (fun _ => DescribeResult.stacks [⟨"ISS-GR-egress-tester-00000000", "CREATE_IN_PROGRESS"⟩]) 90 =
      (some ⟨"ISS-GR-egress-tester-00000000", "CREATE_IN_PROGRESS"⟩, none) := by decide

/-- Claim C4 (code bug): on the recognized failure-terminal status
ROLLBACK_COMPLETE the `switch` of `watchStack` returns the shadowed
(nil) error, so `CreateStack` does NOT fail: it adopts the stack name
and sets the created flag exactly as on success. -/
theorem createStack_rollback_marked_created :
    watchStack oracleRollback.poll 90 =
      (some ⟨"ISS-GR-egress-tester-00000001", "ROLLBACK_COMPLETE"⟩, none) ∧
    createStackRun ftFresh oracleRollback =
      ({ ftFresh with StackName := "ISS-GR-egress-tester-00000001",
                      stackCreated := true }, none) := by
  constructor <;> decide

/-- Claim C9: on a non-empty list, `checkResults` fails citing the URL
of the first element (in list order) that is unsuccessful or slower
than the 6-second threshold; the elements after that one play no role
in the outcome (the result is the same for every continuation `post`);
and an all-passing list validates successfully. -/
theorem checkResults_first_violation_cited (pre : List TestResult) (r : TestResult)
    (post post2 l : List TestResult)
    (hpre : ∀ p ∈ pre, p.Success = true ∧ p.ElapsedTimeS ≤ 6)
    (hr : r.Success = false ∨ r.ElapsedTimeS > 6)
    (hl : ∀ p ∈ l, p.Success = true ∧ p.ElapsedTimeS ≤ 6) :
    checkResults (pre ++ r :: post) = (false, some (violMsg r)) ∧
    checkResults (pre ++ r :: post) = checkResults (pre ++ r :: post2) ∧
    checkResults l = (true, none) :=
  ⟨checkResults_firstViol pre r post hpre hr,
   (checkResults_firstViol pre r post hpre hr).trans
     (checkResults_firstViol pre r post2 hpre hr).symm,
   checkResults_all_pass l hl⟩

/-- Witness for C9 at concrete inputs: a failing element in second
position is cited by URL, the tail beyond it is irrelevant, and an
all-passing singleton passes. -/
theorem checkResults_first_violation_cited_witness :
    checkResults ([passingResult] ++ failingResult :: [passingResult]) =
      (false, some (violMsg failingResult)) ∧
    checkResults ([passingResult] ++ failingResult :: [passingResult]) =
      checkResults ([passingResult] ++ failingResult :: []) ∧
    checkResults [passingResult] = (true, none) :=
  checkResults_first_violation_cited [passingResult] failingResult
    [passingResult] [] [passingResult] (by decide) (by decide) (by decide)

/-- Claim C10: with a nil session, `New`'s first statement writes the
field `sess` through the nil named return pointer, a crash — and `New`
returns a tester only when a session was supplied. -/
theorem new_nil_session_panics (input : FlipTesterInput) :
    (input.Session = none → New input = NewResult.panicNilDeref) ∧
    (∀ ft, New input = NewResult.ok ft → input.Session ≠ none) := by
  constructor
  · intro h; simp [New, h]
  · intro ft hok h
    simp [New, h] at hok

/-- Witness for C10: the all-defaults input (nil session) crashes, and
an input that did construct a tester indeed carried a session. -/
theorem new_nil_session_panics_witness :
    New { SubnetId := "subnet-d3297188", VpcId := "vpc-c8a6c3ae" } =
      NewResult.panicNilDeref ∧
    inputResumed.Session ≠ none :=
  ⟨(new_nil_session_panics _).1 rfl,
   (new_nil_session_panics inputResumed).2 ftResumed (by decide)⟩

/-- Claim C6, counterexample: a fresh-provisioning input with empty
VpcId and SubnetId but a nil session does NOT get the descriptive
error — `New` crashes on the nil-session write first. -/
theorem new_nil_session_masks_field_validation :
    New { Session := none, StackName := "", SubnetId := "", VpcId := "" } =
      NewResult.panicNilDeref ∧
    ∀ msg, New { Session := none, StackName := "", SubnetId := "", VpcId := "" } ≠
      NewResult.err msg :=
  ⟨rfl, fun _ h => by simp [New] at h⟩

/-- Claim C6, amended: provided a session is supplied (otherwise `New`
crashes first, see C10), a fresh-provisioning input with an empty
SubnetId — or a non-empty SubnetId and an empty VpcId — fails
construction immediately with the descriptive error; no collaborator
call is modelled in `New` at all. -/
theorem new_missing_fields_fail_fast (input : FlipTesterInput)
    (hsess : input.Session ≠ none) (hname : input.StackName = "") :
    (input.SubnetId = "" →
      New input =
        NewResult.err "SubnetId is a required input field if StackName is not supplied") ∧
    (input.SubnetId ≠ "" → input.VpcId = "" →
      New input =
        NewResult.err "VpcId is a required input field if StackName is not supplied") := by
  constructor
  · intro hsub
    simp [New, hsess, hname, hsub]
  · intro hsub hvpc
    simp [New, hsess, hname, hsub, hvpc]

/-- Witness for C6 at concrete inputs: both required-field errors are
produced when a session is present. -/
theorem new_missing_fields_fail_fast_witness :
    New { Session := some (), SubnetId := "" } =
      NewResult.err "SubnetId is a required input field if StackName is not supplied" ∧
    New { Session := some (), SubnetId := "subnet-d3297188", VpcId := "" } =
      NewResult.err "VpcId is a required input field if StackName is not supplied" :=
  ⟨(new_missing_fields_fail_fast _ (by decide) rfl).1 rfl,
   (new_missing_fields_fail_fast _ (by decide) rfl).2 (by decide) rfl⟩

/-- Claim C1, counterexample: a run in which the probe invocation
succeeds (results are populated), validation fails, and the retain
flag is false — yet `Test` returns the validation error without
calling `DeleteStack`: the early `if err != nil return err` sits
before the teardown step. -/
theorem test_validation_failure_returns_before_teardown :
    ftResumed.RetainStack = false ∧
    (TestRun ftResumed oracleFailingProbe).ft.TestResults = [failingResult] ∧
    (TestRun ftResumed oracleFailingProbe).err = some "tests failed or took too long" ∧
    (TestRun ftResumed oracleFailingProbe).deleteCalled = false := by
  refine ⟨rfl, by decide, by decide, by decide⟩

/-- Claim C1, amended: any error standing at the end of the
invoke-and-retry section — a validation failure included — makes
`Test` return immediately with that error; the teardown tail is never
reached, so `DeleteStack` is not called regardless of the retain
flag. -/
theorem test_error_skips_teardown (ft1 : FlipTester) (o : TestOracle)
    (created : Bool) (e : String)
    (h1 : ft1.stackCreated = true)
    (h2 : (retrySection ft1 o.calls).err = some e) :
    TestRunAfterCreate ft1 o created =
      ⟨(retrySection ft1 o.calls).ft, some e, created, false,
       (retrySection ft1 o.calls).attempts, (retrySection ft1 o.calls).sleeps⟩ := by
  unfold TestRunAfterCreate
  simp only [h1, if_true, h2]

/-- Witness for C1 (amended) at the concrete failing-probe run. -/
theorem test_error_skips_teardown_witness :
    TestRunAfterCreate ftResumed oracleFailingProbe false =
      ⟨(retrySection ftResumed oracleFailingProbe.calls).ft,
       some "tests failed or took too long", false, false,
       (retrySection ftResumed oracleFailingProbe.calls).attempts,
       (retrySection ftResumed oracleFailingProbe.calls).sleeps⟩ :=
  test_error_skips_teardown ftResumed oracleFailingProbe false
    "tests failed or took too long" rfl (by decide)

/-- Claim C5: a `Test` run makes at most 6 invocation attempts in
total (the initial one plus at most 5 retries); every inter-retry
sleep is the fixed 10 seconds, one sleep per retry; a current error
without the "Service" signature stops the retry loop with no further
attempt; and a current error carrying the signature is retried (the
next attempt is consumed after a 10-second sleep). -/
theorem test_retry_policy (ft0 : FlipTester) (o : TestOracle)
    (calls : Nat → InvokeOracle) (i n : Nat) (ft : FlipTester) (e : String) :
    (TestRun ft0 o).attempts ≤ 6 ∧
    (∀ d ∈ (TestRun ft0 o).sleeps, d = 10) ∧
    (TestRun ft0 o).attempts ≤ (TestRun ft0 o).sleeps.length + 1 ∧
    (goContains e "Service" = false →
      retryLoop calls i ft (some e) n = ⟨ft, some e, n, []⟩) ∧
    (goContains e "Service" = true →
      retryLoop calls (i + 1) ft (some e) n =
        { retryLoop calls i (callLamdaRun ft (calls n)).1
            (callLamdaRun ft (calls n)).2 (n + 1) with
          sleeps := 10 :: (retryLoop calls i (callLamdaRun ft (calls n)).1
            (callLamdaRun ft (calls n)).2 (n + 1)).sleeps }) := by
  have hb := TestRun_bounds ft0 o
  refine ⟨hb.1, hb.2.1, hb.2.2, retryLoop_halt calls i ft e n, ?_⟩
  intro hc
  simp only [retryLoop, hc, if_true]

/-- Witness for C5: the failing-probe run (whose error lacks the
signature) makes exactly one attempt; the non-matching error halts the
loop; a "ServiceException" error is retried with a 10-second sleep. -/
theorem test_retry_policy_witness :
    (TestRun ftResumed oracleFailingProbe).attempts ≤ 6 ∧
    (∀ d ∈ (TestRun ftResumed oracleFailingProbe).sleeps, d = 10) ∧
    (TestRun ftResumed oracleFailingProbe).attempts ≤
      (TestRun ftResumed oracleFailingProbe).sleeps.length + 1 ∧
    retryLoop oracleFailingProbe.calls 5 ftResumed
      (some "tests failed or took too long") 1 =
      ⟨ftResumed, some "tests failed or took too long", 1, []⟩ ∧
    retryLoop oracleFailingProbe.calls (4 + 1) ftResumed (some "ServiceException") 1 =
      { retryLoop oracleFailingProbe.calls 4
          (callLamdaRun ftResumed (oracleFailingProbe.calls 1)).1
          (callLamdaRun ftResumed (oracleFailingProbe.calls 1)).2 (1 + 1) with
        sleeps := 10 :: (retryLoop oracleFailingProbe.calls 4
          (callLamdaRun ftResumed (oracleFailingProbe.calls 1)).1
          (callLamdaRun ftResumed (oracleFailingProbe.calls 1)).2 (1 + 1)).sleeps } := by
  have h1 := test_retry_policy ftResumed oracleFailingProbe oracleFailingProbe.calls
    5 1 ftResumed "tests failed or took too long"
  have h2 := test_retry_policy ftResumed oracleFailingProbe oracleFailingProbe.calls
    4 1 ftResumed "ServiceException"
  exact ⟨h1.1, h1.2.1, h1.2.2.1, h1.2.2.2.1 (by decide), h2.2.2.2.2 (by decide)⟩

/-- Claim C7, counterexample: an orchestrator constructed by resuming
an existing stack name, with the retain flag false, runs `Test` once
(passing, so the stack is deleted and the created flag cleared) — and
a second `Test` on the same instance DOES call `CreateStack`. -/
theorem test_resume_second_run_calls_create :
    New inputResumed = NewResult.ok ftResumed ∧
    (TestRun ftResumed oraclePassing).ft.stackCreated = false ∧
    (TestRun (TestRun ftResumed oraclePassing).ft oraclePassing).createCalled = true := by
  refine ⟨by decide, by decide, by decide⟩

/-- Claim C7, amended: construction by identifier starts with the
created flag set, and any single `Test` run begun with the created
flag set never calls `CreateStack`; the guarantee is per run, not for
the lifetime of the instance, because a non-retained successful run
clears the flag. -/
theorem test_created_flag_gates_create (ft0 : FlipTester) (o : TestOracle)
    (input : FlipTesterInput) (ft : FlipTester)
    (hname : input.StackName ≠ "") (hok : New input = NewResult.ok ft)
    (h0 : ft0.stackCreated = true) :
    ft.stackCreated = true ∧ (TestRun ft0 o).createCalled = false := by
  constructor
  · by_cases hsess : input.Session = none
    · simp [New, hsess] at hok
    · simp only [New, if_neg hsess, if_neg hname, NewResult.ok.injEq] at hok
      rw [← hok]
  · unfold TestRun
    simp only [h0, Bool.not_true, Bool.false_eq_true, if_false]
    exact (TestRunAfterCreate_proj ft0 o false).1

/-- Witness for C7 (amended) at the concrete resumed instance. -/
theorem test_created_flag_gates_create_witness :
    ftResumed.stackCreated = true ∧
    (TestRun ftResumed oraclePassing).createCalled = false :=
  test_created_flag_gates_create ftResumed oraclePassing inputResumed ftResumed
    (by decide) (by decide) rfl

/-- The teardown tail with the retain flag unset: delete is called and
success clears the created flag. -/
theorem finishTeardown_retain_false (ft : FlipTester) (o : TestOracle) (c : Bool)
    (n : Nat) (sl : List Nat) (hr : ft.RetainStack = false) :
    (finishTeardown ft o c n sl).deleteCalled = true ∧
    (o.deleteStack = none →
      (finishTeardown ft o c n sl).ft.stackCreated = false ∧
      (finishTeardown ft o c n sl).err = none) := by
  unfold finishTeardown deleteStackRun
  simp only [hr, Bool.not_false, if_true]
  rcases hd : o.deleteStack with _ | e
  · simp
  · exact ⟨rfl, fun hnone => by cases hnone⟩

/-- The teardown tail with the retain flag set: delete is not called. -/
theorem finishTeardown_retain_true (ft : FlipTester) (o : TestOracle) (c : Bool)
    (n : Nat) (sl : List Nat) (hr : ft.RetainStack = true) :
    (finishTeardown ft o c n sl).deleteCalled = false := by
  unfold finishTeardown
  simp [hr]

/-- Claim C8: in a run whose invoke-and-retry section ends without
error (a passing validation): with the retain flag false, `DeleteStack`
is called, and when it succeeds the created flag ends false and the run
reports no error; with the retain flag true, `DeleteStack` is never
called. -/
theorem test_teardown_policy (ft1 : FlipTester) (o : TestOracle) (created : Bool)
    (h1 : ft1.stackCreated = true)
    (h2 : (retrySection ft1 o.calls).err = none) :
    (ft1.RetainStack = false →
      (TestRunAfterCreate ft1 o created).deleteCalled = true ∧
      (o.deleteStack = none →
        (TestRunAfterCreate ft1 o created).ft.stackCreated = false ∧
        (TestRunAfterCreate ft1 o created).err = none)) ∧
    (ft1.RetainStack = true →
      (TestRunAfterCreate ft1 o created).deleteCalled = false) := by
  have hret := (retrySection_fields ft1 o.calls).1
  unfold TestRunAfterCreate
  simp only [h1, if_true, h2]
  constructor
  · intro hr
    exact finishTeardown_retain_false _ o created _ _ (hret.trans hr)
  · intro hr
    exact finishTeardown_retain_true _ o created _ _ (hret.trans hr)

/-- Witness for C8 at the concrete passing run, in both retain
configurations. -/
theorem test_teardown_policy_witness :
    ((TestRunAfterCreate ftResumed oraclePassing false).deleteCalled = true ∧
     (TestRunAfterCreate ftResumed oraclePassing false).ft.stackCreated = false ∧
     (TestRunAfterCreate ftResumed oraclePassing false).err = none) ∧
    (TestRunAfterCreate ftResumedRetain oraclePassing false).deleteCalled = false := by
  have h1 := test_teardown_policy ftResumed oraclePassing false rfl (by decide)
  have h2 := test_teardown_policy ftResumedRetain oraclePassing false rfl (by decide)
  have ha := (h1.1 rfl)
  exact ⟨⟨ha.1, (ha.2 rfl).1, (ha.2 rfl).2⟩, h2.2 rfl⟩

end Fliptest
